import Mathlib

/-!
Verification of the zodiac-core convenience layer: a shallow embedding of
the response envelope, exception taxonomy, routing wrapper, trace-ID
middleware, config discovery, pagination and database lifecycle manager,
with theorems settling the behavioural claims about each component.
-/

namespace Zodiac

/-! ## JSON-like payload values -/

/-- A JSON-like value, the payloads carried by envelopes and exceptions. -/
inductive Value where
  | null : Value
  | int (n : Int) : Value
  | str (s : String) : Value
  | obj (fields : List (String × Value)) : Value

/-! ## Response envelope (src/zodiac_core/response.py) -/

/-- The pydantic `Response` model: `code : int` (required, no default),
`data : Optional[T] = None`, `message : str = ""`. -/
structure ResponseModel where
  code : Int
  data : Option Value := none
  message : String := ""

/-- Pydantic construction of `Response(code=?, data=?, message=?)`.  In the
source, `code: int = Field(description=...)` carries no default, so omitting
`code` is a validation error; `data` defaults to `None` and `message`
defaults to `""`. -/
def mkResponse (code : Option Int) (data : Option Value) (message : Option String) :
    Except String ResponseModel :=
  match code with
  | none => .error "ValidationError: Field required: code"
  | some c => .ok { code := c, data := data, message := message.getD "" }

/-- Embeds `create_response(http_code, code, data, message)`: when `code` is
`None` it defaults to the HTTP status; returns (HTTP status, envelope body). -/
def create_response (http_code : Int) (code : Option Int) (data : Option Value)
    (message : String) : Int × ResponseModel :=
  (http_code, { code := code.getD http_code, data := data, message := message })

/-! ## Exception taxonomy (src/zodiac_core/exceptions.py) -/

/-- The fixed exception tag set.  `generic` stands for the base
`ZodiacException` (and any subclass outside the five specific tags). -/
inductive ExcTag where
  | badRequest | unauthorized | forbidden | notFound | conflict | generic
  deriving DecidableEq, Repr

/-- The `http_code` class constant of each exception class. -/
def ExcTag.httpCode : ExcTag → Int
  | .badRequest => 400
  | .unauthorized => 401
  | .forbidden => 403
  | .notFound => 404
  | .conflict => 409
  | .generic => 500

/-- The default `message` text of the `response_*` builder the exception
handler routes each tag to (src/zodiac_core/response.py defaults). -/
def ExcTag.defaultText : ExcTag → String
  | .badRequest => "Bad Request"
  | .unauthorized => "Unauthorized"
  | .forbidden => "Forbidden"
  | .notFound => "Not Found"
  | .conflict => "Conflict"
  | .generic => "Internal Server Error"

/-- A constructed `ZodiacException` instance: `message = none` models the
instance having no `message` attribute at all. -/
structure ZodiacException where
  tag : ExcTag
  code : Int
  data : Option Value
  message : Option String

/-- Embeds `ZodiacException.__init__`: `self.code = code or self.http_code`
(Python truthiness: an explicit `0` falls back to the class constant),
`self.data = data`, and `self.message` is set only when `message is not
None`. -/
def ZodiacException.init (tag : ExcTag) (code : Option Int) (data : Option Value)
    (message : Option String) : ZodiacException :=
  { tag := tag
    code := match code with
      | some c => if c = 0 then tag.httpCode else c
      | none => tag.httpCode
    data := data
    message := message }

/-- Embeds `handler_zodiac_exception`: builds `kwargs` from the instance
(`message` only when the attribute exists), matches the tag to the
corresponding `response_*` builder, whose default message is the tag's
text.  Returns (HTTP status, envelope body). -/
def handler_zodiac_exception (exc : ZodiacException) : Int × ResponseModel :=
  create_response exc.tag.httpCode (some exc.code) exc.data
    (exc.message.getD exc.tag.defaultText)

/-! ## Route result wrapping (src/zodiac_core/routing.py) -/

/-- A value returned by an endpoint handler: a plain business value, an
already-built `Response` envelope instance, or a raw low-level
`fastapi.Response` (status, body). -/
inductive HandlerResult where
  | plain (v : Value) : HandlerResult
  | envelope (r : ResponseModel) : HandlerResult
  | rawHttp (status : Int) (body : String) : HandlerResult

/-- Embeds `ZodiacRoute._maybe_wrap_result`: an instance of `Response` or
`fastapi.Response` passes through unchanged; any other value is wrapped via
`Response(data=result)` — a pydantic construction that omits the required
`code` field. -/
def maybe_wrap_result (result : HandlerResult) : Except String HandlerResult :=
  match result with
  | .envelope _ => .ok result
  | .rawHttp _ _ => .ok result
  | .plain v => (mkResponse none (some v) none).map .envelope

/-! ## Theorems for C1 and C2 -/

/-- C1 (code_bug evidence): the pass-through half of the claim holds — an
already-enveloped value or a raw HTTP response is returned unchanged — but
wrapping a plain handler value does not produce an envelope with `code = 0`:
`Response(data=result)` omits the required `code` field and construction
fails with a validation error.  Evaluated at the failing input
`{id: 2, name: "Zodiac"}`, the value the repository's own routing test
returns from its handler. -/
theorem C1_wrap_fails_on_plain_value :
    (∀ r : ResponseModel, maybe_wrap_result (.envelope r) = .ok (.envelope r)) ∧
    (∀ s b, maybe_wrap_result (.rawHttp s b) = .ok (.rawHttp s b)) ∧
    maybe_wrap_result (.plain (.obj [("id", .int 2), ("name", .str "Zodiac")]))
      = .error "ValidationError: Field required: code" ∧
    (∀ v : Value, maybe_wrap_result (.plain v)
      ≠ .ok (.envelope { code := 0, data := some v, message := "" })) := by
  refine ⟨fun r => rfl, fun s b => rfl, rfl, fun v => ?_⟩
  simp [maybe_wrap_result, mkResponse, Except.map]

/-- C2 (counterexample): constructing `BadRequestException(code=0)` does not
give `code = 0`; the `code or self.http_code` truthiness fallback replaces
the explicitly provided `0` with the class constant `400`. -/
theorem C2_code_zero_counterexample :
    (ZodiacException.init .badRequest (some 0) none none).code = 400 ∧
    ¬ (ZodiacException.init .badRequest (some 0) none none).code = 0 := by
  constructor <;> decide

/-- C2 (amended): for every tag, the no-argument construction carries the
tag's fixed HTTP status as `code`, `data = null`, no `message` attribute —
the handler then supplies the tag's default text in the envelope; every
explicitly provided field is taken exactly, except that a provided `code`
of `0` is treated as unset by Python truthiness and falls back to the
tag's HTTP status; unspecified fields keep the tag's defaults. -/
theorem C2_exception_defaults_and_overrides :
    ∀ (tag : ExcTag) (c : Int) (d : Value) (m : String),
    (ZodiacException.init tag none none none).code = tag.httpCode ∧
    (ZodiacException.init tag none none none).data = none ∧
    (ZodiacException.init tag none none none).message = none ∧
    (handler_zodiac_exception (ZodiacException.init tag none none none)).2.message
      = tag.defaultText ∧
    (ZodiacException.init tag (some c) none none).code
      = (if c = 0 then tag.httpCode else c) ∧
    (ZodiacException.init tag (some c) none none).data = none ∧
    (ZodiacException.init tag (some c) none none).message = none ∧
    (ZodiacException.init tag none (some d) none).data = some d ∧
    (ZodiacException.init tag none (some d) none).code = tag.httpCode ∧
    (ZodiacException.init tag none none (some m)).message = some m ∧
    (handler_zodiac_exception (ZodiacException.init tag none none (some m))).2.message
      = m ∧
    (ZodiacException.init tag none none (some m)).code = tag.httpCode := by
  intro tag c d m
  refine ⟨rfl, rfl, rfl, ?_, rfl, rfl, rfl, rfl, rfl, rfl, ?_, rfl⟩ <;>
    simp [handler_zodiac_exception, create_response, ZodiacException.init]

/-! ## Engine arguments (src/zodiac_core/db/session.py, DatabaseManager.setup) -/

/-- Python's `needle in hay` substring test on strings. -/
def strContains (hay needle : String) : Bool :=
  (List.range (hay.toList.length + 1)).any
    (fun i => needle.toList.isPrefixOf (hay.toList.drop i))

/-- The keyword arguments `DatabaseManager.setup` hands to
`create_async_engine`.  `none` in `pool_size` / `max_overflow` means the
option was not passed at all. -/
structure EngineArgs where
  echo : Bool
  pool_pre_ping : Bool
  connect_args : List (String × String)
  kwargs : List (String × String)
  pool_size : Option Nat := none
  max_overflow : Option Nat := none

/-- Embeds the `engine_args` construction in `DatabaseManager.setup`: `echo`,
`pool_pre_ping`, `connect_args or {}` and the extra `**kwargs` are always
included; `pool_size` and `max_overflow` are added only when the substring
`"sqlite"` does not occur in the database URL. -/
def build_engine_args (database_url : String) (echo : Bool) (pool_size : Nat)
    (max_overflow : Nat) (pool_pre_ping : Bool)
    (connect_args : Option (List (String × String)))
    (kwargs : List (String × String)) : EngineArgs :=
  { echo := echo
    pool_pre_ping := pool_pre_ping
    connect_args := connect_args.getD []
    kwargs := kwargs
    pool_size := if strContains database_url "sqlite" then none else some pool_size
    max_overflow := if strContains database_url "sqlite" then none else some max_overflow }

/-! ## Database lifecycle manager (src/zodiac_core/db/session.py) -/

/-- An engine as the registry observes it: the identity of the underlying
pool object plus the arguments it was created with. -/
structure Engine where
  poolId : Nat
  args : EngineArgs

/-- The mutable registries of the `DatabaseManager` singleton: name-keyed
engines and session factories (a factory records the pool it binds), plus a
counter supplying fresh pool identities. -/
structure DBState where
  engines : List (String × Engine)
  factories : List (String × Nat)
  nextId : Nat

/-- The state of the freshly created singleton: empty registries. -/
def DBState.empty : DBState := { engines := [], factories := [], nextId := 0 }

/-- Embeds `DatabaseManager.setup`: when the name is already registered it
logs a warning and returns with the registries untouched (no error);
otherwise it creates an engine from the computed arguments and registers
the engine and a session factory bound to it. -/
def DBState.setup (s : DBState) (database_url : String) (name : String)
    (echo : Bool) (pool_size : Nat) (max_overflow : Nat) (pool_pre_ping : Bool)
    (connect_args : Option (List (String × String)))
    (kwargs : List (String × String)) : DBState :=
  if (s.engines.lookup name).isSome then s
  else
    let args := build_engine_args database_url echo pool_size max_overflow
      pool_pre_ping connect_args kwargs
    { engines := (name, { poolId := s.nextId, args := args }) :: s.engines,
      factories := (name, s.nextId) :: s.factories,
      nextId := s.nextId + 1 }

/-- Success test on a fallible outcome: `true` exactly on `.ok`. -/
def isOkE {ε α : Type} : Except ε α → Bool
  | .ok _ => true
  | .error _ => false

/-- Embeds `DatabaseManager.get_engine`: a descriptive `RuntimeError` when
the name is not registered, the engine otherwise. -/
def DBState.get_engine (s : DBState) (name : String) : Except String Engine :=
  match s.engines.lookup name with
  | some e => .ok e
  | none => .error ("RuntimeError: Database engine " ++ name ++
      " is not initialized. Call db.setup first.")

/-- Embeds `DatabaseManager.get_factory`: a descriptive `RuntimeError` when
the name is not registered, the factory (as the pool it binds) otherwise. -/
def DBState.get_factory (s : DBState) (name : String) : Except String Nat :=
  match s.factories.lookup name with
  | some f => .ok f
  | none => .error ("RuntimeError: Session factory for " ++ name ++
      " is not initialized. Call db.setup first.")

/-- Embeds `DatabaseManager.shutdown`: disposes every engine and clears both
registries.  It is a total function — no code path raises — and is
well-defined on an empty registry. -/
def DBState.shutdown (s : DBState) : DBState :=
  { s with engines := [], factories := [] }

/-! ## Session lifecycle (src/zodiac_core/db/session.py, manage_session) -/

/-- The observable session operations `manage_session` can invoke. -/
inductive SessionEvent where
  | rollback | commit | close
  deriving DecidableEq, Repr

/-- Embeds `manage_session`: runs the caller's block (`body`), rolls back
when it raises and re-raises, and closes the session in a `finally` block.
`rollbackResult` is the outcome of the rollback call itself.  Returns the
propagated outcome paired with the ordered trace of session operations
attempted. -/
def manage_session (body : Except String Unit) (rollbackResult : Except String Unit) :
    Except String Unit × List SessionEvent :=
  match body with
  | .ok _ => (.ok (), [.close])
  | .error e =>
    match rollbackResult with
    | .ok _ => (.error e, [.rollback, .close])
    | .error e2 => (.error e2, [.rollback, .close])

/-! ## Theorems for C3 and C4 -/

/-- C3: setup is idempotent per name — a second setup with the same name
leaves the state unchanged and both calls observe the same pool instance;
`get_engine` / `get_factory` succeed exactly when the name is registered and
return a descriptive error otherwise; and `shutdown` clears both
registries, is total (never raises), is well-defined on the empty state and
is safe to repeat. -/
theorem C3_manager_registry_invariants :
    ∀ (s : DBState) (u1 u2 name : String) (e1 e2 : Bool) (ps1 ps2 mo1 mo2 : Nat)
      (pp1 pp2 : Bool) (ca1 ca2 : Option (List (String × String)))
      (kw1 kw2 : List (String × String)),
    ((s.setup u1 name e1 ps1 mo1 pp1 ca1 kw1).setup u2 name e2 ps2 mo2 pp2 ca2 kw2
      = s.setup u1 name e1 ps1 mo1 pp1 ca1 kw1) ∧
    (((s.setup u1 name e1 ps1 mo1 pp1 ca1 kw1).setup u2 name e2 ps2 mo2 pp2 ca2 kw2).get_engine
        name = (s.setup u1 name e1 ps1 mo1 pp1 ca1 kw1).get_engine name) ∧
    (isOkE (s.get_engine name) = (s.engines.lookup name).isSome) ∧
    (isOkE (s.get_factory name) = (s.factories.lookup name).isSome) ∧
    (s.engines.lookup name = none →
      s.get_engine name = .error ("RuntimeError: Database engine " ++ name ++
        " is not initialized. Call db.setup first.")) ∧
    (s.shutdown.engines = [] ∧ s.shutdown.factories = []) ∧
    (s.shutdown.shutdown = s.shutdown) ∧
    (DBState.empty.shutdown.engines = [] ∧ DBState.empty.shutdown.factories = []) := by
  intro s u1 u2 name e1 e2 ps1 ps2 mo1 mo2 pp1 pp2 ca1 ca2 kw1 kw2
  have hsetup : (s.setup u1 name e1 ps1 mo1 pp1 ca1 kw1).setup u2 name e2 ps2 mo2 pp2 ca2 kw2
      = s.setup u1 name e1 ps1 mo1 pp1 ca1 kw1 := by
    by_cases h : (s.engines.lookup name).isSome
    · simp [DBState.setup, h]
    · simp only [DBState.setup, h, if_neg, Bool.false_eq_true, not_false_iff, if_false]
      simp [List.lookup]
  refine ⟨hsetup, by rw [hsetup], ?_, ?_, ?_, ⟨rfl, rfl⟩, rfl, ⟨rfl, rfl⟩⟩
  · cases h : s.engines.lookup name <;> simp [DBState.get_engine, h, isOkE]
  · cases h : s.factories.lookup name <;> simp [DBState.get_factory, h, isOkE]
  · intro h
    simp [DBState.get_engine, h]

/-- C3 witness: the registry invariants discharged at a concrete state. -/
theorem C3_manager_registry_invariants_witness :
    (DBState.empty.setup "postgresql://h/db" "main" false 10 20 true none []).setup
        "postgresql://h/db" "main" false 10 20 true none []
      = DBState.empty.setup "postgresql://h/db" "main" false 10 20 true none [] := by
  exact (C3_manager_registry_invariants DBState.empty "postgresql://h/db"
    "postgresql://h/db" "main" false false 10 10 20 20 true true none none [] []).1

/-- C4: for every block outcome and rollback outcome, the session is closed
(as the last teardown step) in every case; rollback is attempted exactly
when the block raises; when rollback succeeds the block's exception is the
one propagated; an error always propagates when the block raises; no commit
is ever issued implicitly; and the close is still attempted when the
rollback itself raises. -/
theorem C4_session_lifecycle :
    ∀ (body rollbackResult : Except String Unit),
    (SessionEvent.close ∈ (manage_session body rollbackResult).2) ∧
    ((manage_session body rollbackResult).2.getLast? = some .close) ∧
    ((SessionEvent.rollback ∈ (manage_session body rollbackResult).2)
      ↔ ¬ (body = .ok ())) ∧
    (∀ e, body = .error e → rollbackResult = .ok () →
      (manage_session body rollbackResult).1 = .error e) ∧
    (∀ e, body = .error e → ¬ (manage_session body rollbackResult).1 = .ok ()) ∧
    (SessionEvent.commit ∉ (manage_session body rollbackResult).2) ∧
    (∀ e e2, body = .error e → rollbackResult = .error e2 →
      SessionEvent.close ∈ (manage_session body rollbackResult).2) := by
  intro body rollbackResult
  cases body <;> cases rollbackResult <;> simp [manage_session]

/-- C4 witness: the lifecycle facts discharged at a concrete failing block
with a failing rollback. -/
theorem C4_session_lifecycle_witness :
    SessionEvent.close ∈ (manage_session (.error "boom") (.error "rb-failed")).2 := by
  exact (C4_session_lifecycle (.error "boom") (.error "rb-failed")).1

/-- C10: the pool sizing options are dropped exactly when `"sqlite"` occurs
in the database URL, while `echo`, `pool_pre_ping`, `connect_args` (or `{}`
when `None`) and the extra keyword arguments are always applied; evaluated
at a sqlite URL and at a postgres URL. -/
theorem C10_sqlite_drops_pool_sizing :
    ∀ (url : String) (echo : Bool) (ps mo : Nat) (pp : Bool)
      (ca : Option (List (String × String))) (kw : List (String × String)),
    ((build_engine_args url echo ps mo pp ca kw).pool_size.isSome
      = !strContains url "sqlite") ∧
    ((build_engine_args url echo ps mo pp ca kw).max_overflow.isSome
      = !strContains url "sqlite") ∧
    ((build_engine_args url echo ps mo pp ca kw).pool_size
      = if strContains url "sqlite" then none else some ps) ∧
    ((build_engine_args url echo ps mo pp ca kw).max_overflow
      = if strContains url "sqlite" then none else some mo) ∧
    ((build_engine_args url echo ps mo pp ca kw).echo = echo) ∧
    ((build_engine_args url echo ps mo pp ca kw).pool_pre_ping = pp) ∧
    ((build_engine_args url echo ps mo pp ca kw).connect_args = ca.getD []) ∧
    ((build_engine_args url echo ps mo pp ca kw).kwargs = kw) ∧
    strContains "sqlite+aiosqlite:///database.db" "sqlite" = true ∧
    ((build_engine_args "sqlite+aiosqlite:///database.db" echo ps mo pp ca kw).pool_size
      = none) ∧
    strContains "postgresql+asyncpg://host/db" "sqlite" = false ∧
    ((build_engine_args "postgresql+asyncpg://host/db" echo ps mo pp ca kw).pool_size
      = some ps) := by
  intro url echo ps mo pp ca kw
  have hs : strContains "sqlite+aiosqlite:///database.db" "sqlite" = true := by decide
  have hp : strContains "postgresql+asyncpg://host/db" "sqlite" = false := by decide
  refine ⟨?_, ?_, rfl, rfl, rfl, rfl, rfl, rfl, hs, ?_, hp, ?_⟩
  · by_cases h : strContains url "sqlite" = true <;> simp [build_engine_args, h]
  · by_cases h : strContains url "sqlite" = true <;> simp [build_engine_args, h]
  · simp [build_engine_args, hs]
  · simp [build_engine_args, hp]

/-! ## Pagination (src/zodiac_core/pagination.py, src/zodiac_core/db/repository.py) -/

/-- A `select` statement over rows of type `α`, carrying the `LIMIT` /
`OFFSET` clauses SQLAlchemy stores on it (`none` = clause absent). -/
structure Stmt (α : Type) where
  rows : List α
  lim : Option Nat := none
  off : Option Nat := none

/-- SQLAlchemy `statement.limit(n)`: replaces the limit clause
(`limit(None)` removes it). -/
def Stmt.limit {α : Type} (s : Stmt α) (n : Option Nat) : Stmt α := { s with lim := n }

/-- SQLAlchemy `statement.offset(n)`: replaces the offset clause
(`offset(None)` removes it). -/
def Stmt.offset {α : Type} (s : Stmt α) (n : Option Nat) : Stmt α := { s with off := n }

/-- Executing a statement: its rows after the offset clause, then the limit
clause (SQL `OFFSET` before `LIMIT`). -/
def Stmt.eval {α : Type} (s : Stmt α) : List α :=
  match s.lim with
  | some k => (match s.off with | some j => s.rows.drop j | none => s.rows).take k
  | none => match s.off with | some j => s.rows.drop j | none => s.rows

/-- Embeds the count query of `BaseSQLRepository.paginate`:
`select(func.count()).select_from(statement.limit(None).offset(None).subquery())`
— the row count of the statement with its limit/offset clauses removed. -/
def count_subquery {α : Type} (s : Stmt α) : Nat :=
  (((s.limit none).offset none).eval).length

/-- Validated pagination parameters (`page ≥ 1`, `1 ≤ size ≤ 100`). -/
structure PageParams where
  page : Nat
  size : Nat
  deriving DecidableEq, Repr

/-- Pydantic validation of `PageParams(page=?, size=?)` with the field
constraints `page: ge=1`, `size: ge=1, le=100`; out-of-range input is
rejected here, before any query executes. -/
def mkPageParams (page size : Int) : Option PageParams :=
  if 1 ≤ page ∧ 1 ≤ size ∧ size ≤ 100 then
    some { page := page.toNat, size := size.toNat }
  else none

/-- The paged result `{items, total, page, size}`. -/
structure PagedResponse (α : Type) where
  items : List α
  total : Nat
  page : Nat
  size : Nat
  deriving DecidableEq, Repr

/-- Embeds `PagedResponse.create(items, total, params)`. -/
def PagedResponse.create {α : Type} (items : List α) (total : Nat)
    (params : PageParams) : PagedResponse α :=
  { items := items, total := total, page := params.page, size := params.size }

/-- Embeds `BaseSQLRepository.paginate`: the total from the count
sub-query, then the slice `statement.offset((page-1)*size).limit(size)`,
packaged with the echoed parameters. -/
def paginate {α : Type} (stmt : Stmt α) (params : PageParams) : PagedResponse α :=
  let total := count_subquery stmt
  let skip := (params.page - 1) * params.size
  let items := ((stmt.offset (some skip)).limit (some params.size)).eval
  PagedResponse.create items total params

/-- C5: `paginate` returns exactly the slice at offset `(page-1)*size` of
length at most `size`; the total comes from the statement with its
limit/offset clauses removed, so a pre-existing limit/offset never affects
the count; `page` and `size` are echoed; parameter validation accepts
exactly `page ≥ 1 ∧ 1 ≤ size ≤ 100`, so `size = 0` and `size = 101` are
rejected before any query runs; and `page = 3, size = 10` over the rows
`1..100` yields items `21..30` with total `100`. -/
theorem C5_paginate_slice_and_count :
    ∀ (stmt : Stmt Nat) (pp : PageParams) (page size : Int) (l o : Option Nat),
    ((paginate stmt pp).items
      = (stmt.rows.drop ((pp.page - 1) * pp.size)).take pp.size) ∧
    ((paginate stmt pp).total = stmt.rows.length) ∧
    (count_subquery { rows := stmt.rows, lim := l, off := o } = stmt.rows.length) ∧
    ((paginate stmt pp).page = pp.page) ∧
    ((paginate stmt pp).size = pp.size) ∧
    ((mkPageParams page size).isSome ↔ (1 ≤ page ∧ 1 ≤ size ∧ size ≤ 100)) ∧
    (mkPageParams 3 0 = none) ∧
    (mkPageParams 3 101 = none) ∧
    (mkPageParams 3 10 = some { page := 3, size := 10 }) ∧
    ((paginate { rows := (List.range 100).map (· + 1) } { page := 3, size := 10 }).items
      = (List.range 10).map (· + 21)) ∧
    ((paginate { rows := (List.range 100).map (· + 1) } { page := 3, size := 10 }).total
      = 100) := by
  intro stmt pp page size l o
  refine ⟨rfl, ?_, ?_, rfl, rfl, ?_, by decide, by decide, by decide, by decide, by decide⟩
  · simp [paginate, count_subquery, Stmt.limit, Stmt.offset, Stmt.eval,
      PagedResponse.create]
  · simp [count_subquery, Stmt.limit, Stmt.offset, Stmt.eval]
  · by_cases h : 1 ≤ page ∧ 1 ≤ size ∧ size ≤ 100 <;> simp [mkPageParams, h]

/-! ## Config file discovery (src/zodiac_core/config.py) -/

/-- Splits a character list at every dot, mirroring Python
`filename.split(".")`. -/
def splitOnDot : List Char → List (List Char)
  | [] => [[]]
  | c :: rest =>
    match splitOnDot rest with
    | [] => [[]]
    | g :: gs => if c = '.' then [] :: g :: gs else (c :: g) :: gs

/-- ASCII lower-casing of one character, mirroring Python `str.lower` on the
ASCII names involved. -/
def charLower (c : Char) : Char :=
  if 'A' ≤ c ∧ c ≤ 'Z' then Char.ofNat (c.toNat + 32) else c

/-- Python `s.lower()`. -/
def lowerStr (s : String) : String := String.mk (s.toList.map charLower)

/-- Python `filename.count(".")`. -/
def countDots (s : String) : Nat := (s.toList.filter (fun c => c = '.')).length

/-- Embeds `ConfigManagement.__is_base_config_file`: exactly one dot in the
filename. -/
def is_base_config_file (filename : String) : Bool := countDots filename == 1

/-- Embeds `ConfigManagement.__get_configuration_env`: `parts[-2].lower()`
of `filename.split(".")` (the environment segment of `name.env.ini`). -/
def configuration_env (filename : String) : String :=
  let parts := splitOnDot filename.toList
  lowerStr (String.mk (parts.getD (parts.length - 2) []))

/-- The `Environment` enum's values. -/
def valid_envs : List String := ["develop", "testing", "staging", "production"]

/-- The scanning loop of `get_config_files` over one directory's sorted
`*.ini` filenames: base files into the first accumulator, files whose
environment segment equals the target into the second; files of another
environment — known (skipped silently) or unknown (logged) — go to
neither. -/
def classify_config_files (target_env : String) : List String → List String × List String
  | [] => ([], [])
  | f :: rest =>
    let (b, e) := classify_config_files target_env rest
    if is_base_config_file f then (f :: b, e)
    else if configuration_env f == target_env then (b, f :: e)
    else (b, e)

/-- Embeds `ConfigManagement.get_config_files` on one directory: the target
environment is the named environment variable's value (lower-cased) with a
default fallback, and the result is base files followed by matching
environment files. -/
def get_config_files (ini_files : List String) (env_value : Option String)
    (default_env : String) : List String :=
  (classify_config_files (lowerStr (env_value.getD default_env)) ini_files).1 ++
    (classify_config_files (lowerStr (env_value.getD default_env)) ini_files).2

/-- The classifying loop collects exactly the base files (in order) and the
target-environment files (in order). -/
theorem classify_config_files_eq (t : String) (files : List String) :
    classify_config_files t files
      = (files.filter is_base_config_file,
         files.filter (fun f => !is_base_config_file f && configuration_env f == t)) := by
  induction files with
  | nil => rfl
  | cons f rest ih =>
    by_cases hb : is_base_config_file f <;>
      by_cases he : configuration_env f == t <;>
        simp [classify_config_files, ih, hb, he, List.filter_cons]

/-- C7: every base file (exactly one dot) appears before every
environment-selected file, every non-base file in the result carries the
target environment segment (so files of a different known environment are
excluded), and on `app.ini`, `app.develop.ini`, `app.production.ini` with
target environment `develop` the result is `app.ini` then `app.develop.ini`
with `app.production.ini` excluded. -/
theorem C7_config_discovery_order :
    ∀ (files : List String) (envv : Option String) (denv : String),
    (get_config_files files envv denv
      = (get_config_files files envv denv).filter is_base_config_file ++
        (get_config_files files envv denv).filter
          (fun f => !is_base_config_file f)) ∧
    ((get_config_files files envv denv).filter
      (fun f => !is_base_config_file f &&
        !(configuration_env f == lowerStr (envv.getD denv))) = []) ∧
    (get_config_files ["app.develop.ini", "app.ini", "app.production.ini"]
        (some "develop") "production" = ["app.ini", "app.develop.ini"]) ∧
    ("app.production.ini" ∉ get_config_files
        ["app.develop.ini", "app.ini", "app.production.ini"]
        (some "develop") "production") := by
  intro files envv denv
  refine ⟨?_, ?_, by decide, by decide⟩
  · have hA1 : (files.filter is_base_config_file).filter is_base_config_file
        = files.filter is_base_config_file := by
      simp [List.filter_filter]
    have hA2 : (files.filter is_base_config_file).filter
        (fun f => !is_base_config_file f) = [] := by
      rw [List.filter_eq_nil_iff]
      intro a ha
      rw [List.mem_filter] at ha
      simp [ha.2]
    have hB1 : (files.filter (fun f => !is_base_config_file f &&
          (configuration_env f == lowerStr (envv.getD denv)))).filter
        is_base_config_file = [] := by
      rw [List.filter_eq_nil_iff]
      intro a ha
      rw [List.mem_filter] at ha
      have h2 := ha.2
      simp only [Bool.and_eq_true, Bool.not_eq_true'] at h2
      simp [h2.1]
    have hB2 : (files.filter (fun f => !is_base_config_file f &&
          (configuration_env f == lowerStr (envv.getD denv)))).filter
        (fun f => !is_base_config_file f)
        = files.filter (fun f => !is_base_config_file f &&
            (configuration_env f == lowerStr (envv.getD denv))) := by
      rw [List.filter_eq_self]
      intro a ha
      rw [List.mem_filter] at ha
      have h2 := ha.2
      simp only [Bool.and_eq_true, Bool.not_eq_true'] at h2
      simp [h2.1]
    simp only [get_config_files, classify_config_files_eq, List.filter_append]
    rw [hA1, hA2, hB1, hB2]
    simp
  · rw [List.filter_eq_nil_iff]
    intro a ha
    simp only [get_config_files, classify_config_files_eq, List.mem_append,
      List.mem_filter] at ha
    rcases ha with h | h
    · simp [h.2]
    · have h2 := h.2
      simp only [Bool.and_eq_true, Bool.not_eq_true'] at h2
      simp [h2.2]

/-! ## Response-model type introspection (src/zodiac_core/routing.py) -/

/-- The Python type annotations `_should_wrap` can be handed: `Any`, `None`,
a plain named class (`User`, `int`), a parametrized list (`List[X]`), the
bare `List`, a union (`Union[A, B]` / `Optional[X]`), the `Response` class
(or a subclass), and a parametrized `Response[T]`. -/
inductive PyType where
  | anyT : PyType
  | noneT : PyType
  | named (s : String) : PyType
  | listOf (t : PyType) : PyType
  | listBare : PyType
  | unionOf (a b : PyType) : PyType
  | respClass : PyType
  | respGeneric (t : PyType) : PyType
  deriving DecidableEq, Repr

/-- The origins `typing.get_origin` can report here. -/
inductive Origin where
  | list | union | response
  deriving DecidableEq, Repr

/-- Python `typing.get_origin`: the unsubscripted origin of a parametrized
generic, `None` for plain classes. -/
def get_origin : PyType → Option Origin
  | .listOf _ => some .list
  | .unionOf _ _ => some .union
  | .respGeneric _ => some .response
  | _ => none

/-- The Python exceptions the introspection can raise. -/
inductive PyErr where
  | typeError
  deriving DecidableEq, Repr

/-- Python `isinstance(model, type)`: true for actual classes, including a
builtin parametrized generic alias such as `list[X]`; false for `Any`,
`None`, bare `List` and unions. -/
def isinstance_type : PyType → Bool
  | .named _ => true
  | .respClass => true
  | .respGeneric _ => true
  | .listOf _ => true
  | _ => false

/-- Python `issubclass(model, Response)`: defined on classes; raises
`TypeError` when the first argument is not a plain class (e.g. a
parametrized generic alias). -/
def issubclass_response : PyType → Except PyErr Bool
  | .respClass => .ok true
  | .respGeneric _ => .ok true
  | .named _ => .ok false
  | _ => .error .typeError

/-- The guarded check `isinstance(model, type) and issubclass(model,
Response)` of `_should_wrap` (Python `and` short-circuits). -/
def subclass_check (m : PyType) : Except PyErr Bool :=
  if isinstance_type m then issubclass_response m else .ok false

/-- Embeds `ZodiacRoute._should_wrap`: `Any` and `None` need wrapping; a
type whose origin is `Response` does not; a class passing the subclass
check does not; a `TypeError` from the subclass check is caught and
discarded; everything else needs wrapping.  The result is `Except` so that
an uncaught exception would be visible as `.error`. -/
def should_wrap (m : PyType) : Except PyErr Bool :=
  if m = .anyT ∨ m = .noneT then .ok true
  else if get_origin m = some .response then .ok false
  else
    match subclass_check m with
    | .ok true => .ok false
    | .ok false => .ok true
    | .error .typeError => .ok true

/-- Modelled from the spec: the naming helper `_get_model_name` is absent
from src/zodiac_core/routing.py (only its unit test remains in the
repository); per the spec's name-derivation rule, `List[X] → List_X` with
nested lists concatenating recursively, a class yields its own name, and
unnamed/primitive constructs fall back to the generic label `Any`. -/
def get_model_name : PyType → String
  | .listOf t => "List_" ++ get_model_name t
  | .listBare => "List"
  | .named s => s
  | .respClass => "Response"
  | .respGeneric _ => "Response"
  | _ => "Any"

/-- Embeds the response-model step of `ZodiacRoute.__init__`: when
`_should_wrap(response_model)` holds, the declared model is replaced by
`Response[response_model or Any]`; otherwise it is left unchanged. -/
def init_response_model (m : PyType) : PyType :=
  match should_wrap m with
  | .ok true => .respGeneric (if m = .noneT then .anyT else m)
  | _ => m

/-- The name of the documentation type a route declares after registration:
a synthesized wrapper is named from the inner type's name. -/
def response_doc_name (m : PyType) : String :=
  match init_response_model m with
  | .respGeneric inner => "Response_" ++ get_model_name inner
  | t => get_model_name t

/-! ## Trace-ID middleware (src/zodiac_core/middleware.py) -/

/-- Modelled from the spec: `zodiac_core.context` is absent from src/ (it
is imported by the middleware and the package root).  The request-scoped
ContextVar: `set` stores a value and returns a reset token holding the
previous value, `reset` restores the token's value, `get` reads the current
value (`None` outside request scope). -/
def set_request_id (ctx : Option String) (rid : String) :
    Option String × Option String :=
  (some rid, ctx)

/-- Modelled from the spec: resetting the ContextVar through a token
restores the value the token captured. -/
def reset_request_id (token : Option String) : Option String := token

/-- Modelled from the spec: reading the ContextVar. -/
def get_request_id (ctx : Option String) : Option String := ctx

/-- Hex rendering of one nibble. -/
def hexDigitChar (k : Nat) : Char := "0123456789abcdef".toList.getD (k % 16) '0'

/-- Embeds `default_id_generator` = `str(uuid.uuid4())`: the 32 hex digits
of the 128-bit value in the canonical hyphenated 8-4-4-4-12 rendering. -/
def default_id_generator (seed : Nat) : String :=
  String.mk
    (((List.range 8).map (fun i => hexDigitChar (seed / 16 ^ i))) ++ ['-'] ++
     ((List.range 4).map (fun i => hexDigitChar (seed / 16 ^ (8 + i)))) ++ ['-'] ++
     ((List.range 4).map (fun i => hexDigitChar (seed / 16 ^ (12 + i)))) ++ ['-'] ++
     ((List.range 4).map (fun i => hexDigitChar (seed / 16 ^ (16 + i)))) ++ ['-'] ++
     ((List.range 12).map (fun i => hexDigitChar (seed / 16 ^ (20 + i)))))

/-- What one pass of `TraceIDMiddleware.dispatch` produces. -/
structure DispatchOutcome where
  responseHeader : Option String
  raised : Bool
  ctxDuring : Option String
  finalCtx : Option String

/-- Embeds `TraceIDMiddleware.dispatch`: take the inbound header value when
present and exactly 36 characters long, else a generated id; store it in
the context for the handler; write it on the response header on success;
reset the context in a `finally` block whether or not the handler raised. -/
def dispatch (header : Option String) (generated : String) (handlerRaises : Bool)
    (ctx0 : Option String) : DispatchOutcome :=
  let rid := match header with
    | none => generated
    | some h => if h.length = 36 then h else generated
  let st := set_request_id ctx0 rid
  if handlerRaises then
    { responseHeader := none, raised := true, ctxDuring := st.1,
      finalCtx := reset_request_id st.2 }
  else
    { responseHeader := some rid, raised := false, ctxDuring := st.1,
      finalCtx := reset_request_id st.2 }

/-! ## Theorems for C6, C8 and C9 -/

/-- C6: a present 36-character header value is stored in the request-scoped
context and echoed on the response; an absent header or one of any other
length is replaced by a generated identifier; the generated identifier is
36 characters long; and the context is reset to its pre-request value in
every case — handler failure included — so reading it outside request
scope (pre-request value absent) yields absent. -/
theorem C6_trace_id_roundtrip :
    ∀ (h gen : String) (raises : Bool) (ctx0 : Option String) (seed : Nat),
    (h.length = 36 → (dispatch (some h) gen raises ctx0).ctxDuring = some h) ∧
    (h.length = 36 → (dispatch (some h) gen false ctx0).responseHeader = some h) ∧
    (h.length ≠ 36 → (dispatch (some h) gen raises ctx0).ctxDuring = some gen) ∧
    (h.length ≠ 36 → (dispatch (some h) gen false ctx0).responseHeader = some gen) ∧
    ((dispatch none gen raises ctx0).ctxDuring = some gen) ∧
    ((dispatch none gen false ctx0).responseHeader = some gen) ∧
    ((dispatch (some h) gen raises ctx0).finalCtx = ctx0) ∧
    ((dispatch none gen raises ctx0).finalCtx = ctx0) ∧
    (get_request_id (dispatch (some h) gen true none).finalCtx = none) ∧
    ((default_id_generator seed).length = 36) := by
  intro h gen raises ctx0 seed
  refine ⟨fun hl => ?_, fun hl => ?_, fun hl => ?_, fun hl => ?_, ?_, ?_, ?_, ?_, ?_, ?_⟩
  · cases raises <;> simp [dispatch, hl, set_request_id]
  · simp [dispatch, hl, set_request_id]
  · cases raises <;> simp [dispatch, hl, set_request_id]
  · simp [dispatch, hl, set_request_id]
  · cases raises <;> simp [dispatch, set_request_id]
  · simp [dispatch, set_request_id]
  · cases raises <;> simp [dispatch, set_request_id, reset_request_id]
  · cases raises <;> simp [dispatch, set_request_id, reset_request_id]
  · simp [dispatch, set_request_id, reset_request_id, get_request_id]
  · simp [default_id_generator, String.length]

/-- C8: the synthesized documentation type's name is derived
deterministically from the inner type's name — `List[X]` yields `List_`
followed by `X`'s name, nested lists concatenate recursively, unnamed
constructs fall back to the generic label — and the wrapper is synthesized
exactly when the declared type is not already the envelope type. -/
theorem C8_wrapped_model_naming :
    ∀ (t : PyType) (s : String),
    (get_model_name (.listOf t) = "List_" ++ get_model_name t) ∧
    (get_model_name (.listOf (.named s)) = "List_" ++ s) ∧
    (get_model_name (.listOf (.listOf (.named s))) = "List_List_" ++ s) ∧
    (get_model_name .listBare = "List") ∧
    (get_model_name .anyT = "Any") ∧
    (response_doc_name (.named s) = "Response_" ++ s) ∧
    (response_doc_name (.listOf (.named s)) = "Response_List_" ++ s) ∧
    (init_response_model .respClass = .respClass) ∧
    (init_response_model (.respGeneric (.named s)) = .respGeneric (.named s)) ∧
    (init_response_model (.named s) = .respGeneric (.named s)) ∧
    (init_response_model .noneT = .respGeneric .anyT) := by
  intro t s
  refine ⟨rfl, rfl, rfl, rfl, rfl, rfl, rfl, rfl, rfl, rfl, rfl⟩

/-- C9: the needs-wrapping check is total — for every input type it
returns a boolean and never lets an exception escape (the `TypeError` a
parametrized generic alias provokes in `issubclass` is caught) — and a
union type is classified as needing wrapping. -/
theorem C9_should_wrap_total :
    ∀ (m a b : PyType),
    (isOkE (should_wrap m) = true) ∧
    (should_wrap (.unionOf a b) = .ok true) ∧
    (should_wrap (.listOf m) = .ok true) ∧
    (subclass_check (.listOf m) = .error .typeError) ∧
    (should_wrap .respClass = .ok false) ∧
    (should_wrap (.respGeneric m) = .ok false) := by
  intro m a b
  refine ⟨?_, rfl, rfl, rfl, rfl, rfl⟩
  cases m <;> rfl

end Zodiac
